import Mathlib

/-!
Shallow embedding of the Ridelytics geospatial matching & ranking engine
(Express backend `app.ts` and `chatbot/chatHandler.ts`).

JavaScript numbers are modelled as rationals (`ℚ`); `Math.round` is
round-half-toward-positive-infinity; the external distance function
(`calculateDistance` from `utils/distance.ts`) is an explicit parameter,
since none of the properties below depend on the haversine formula itself.
JavaScript's `Array.prototype.sort` is required by the language to be a
stable sort, so it is modelled by the stable `List.insertionSort`.
-/

namespace Ridelytics

/-- An advertisement record as parsed from `ads.json`.  The `description`
field is declared only in the chat path's `Ad` interface; the
recommendation path never reads it, so a single record type is used. -/
structure Ad where
  id : String
  businessName : String
  description : String
  imageUrl : String
  websiteUrl : String
  latitude : ℚ
  longitude : ℚ
  radius : ℚ
  active : Bool
  priority : ℚ
  deriving Repr, DecidableEq

/-- JavaScript `Math.round`: round half toward positive infinity. -/
def jsRound (q : ℚ) : ℤ := ⌊q + 1/2⌋

/-- Evaluation rule for `jsRound` on concrete rationals. -/
theorem jsRound_eq {q : ℚ} {z : ℤ} (h1 : (z : ℚ) ≤ q + 1/2) (h2 : q + 1/2 < z + 1) :
    jsRound q = z :=
  Int.floor_eq_iff.mpr ⟨h1, h2⟩

/-- Signature of `calculateDistance(userLat, userLng, adLat, adLng)`. -/
abbrev Dist := ℚ → ℚ → ℚ → ℚ → ℚ

/-- The catalog store: `readFileSync` + `JSON.parse` either yields the
record list or throws (file unreadable / malformed JSON). -/
abbrev Store := Except String (List Ad)

/-- `getAds` from `app.ts`: wraps the store read in try/catch and
degrades a failure to the empty list. -/
def getAds (store : Store) : List Ad :=
  match store with
  | .ok ads => ads
  | .error _ => []

/-- `getAds` from `chatbot/chatHandler.ts`: no try/catch, so a store
failure propagates to the caller as an exception. -/
def chatGetAds (store : Store) : Except String (List Ad) :=
  store

/-- A catalog record paired with its rounded distance, as produced by the
`map` step of the recommendation pipeline (`{...ad, distance: Math.round(distance)}`). -/
structure MatchedAd where
  ad : Ad
  distance : ℤ
  deriving Repr, DecidableEq

/-- The comparator of `app.ts` lines 97–103 read as a "sorts no later
than" relation: `a.priority - b.priority` negative, or zero and
`a.distance - b.distance` non-positive. -/
def rankLe (a b : MatchedAd) : Prop :=
  a.ad.priority < b.ad.priority ∨ (a.ad.priority = b.ad.priority ∧ a.distance ≤ b.distance)

instance : DecidableRel rankLe := fun a b => by
  unfold rankLe; infer_instance

instance : IsTotal MatchedAd rankLe := by
  constructor
  intro a b
  rcases lt_trichotomy a.ad.priority b.ad.priority with h | h | h
  · exact Or.inl (Or.inl h)
  · rcases le_total a.distance b.distance with h2 | h2
    · exact Or.inl (Or.inr ⟨h, h2⟩)
    · exact Or.inr (Or.inr ⟨h.symm, h2⟩)
  · exact Or.inr (Or.inl h)

instance : IsTrans MatchedAd rankLe := by
  constructor
  intro a b c hab hbc
  rcases hab with h | ⟨he, hd⟩
  · rcases hbc with h2 | ⟨he2, _⟩
    · exact Or.inl (h.trans h2)
    · exact Or.inl (he2 ▸ h)
  · rcases hbc with h2 | ⟨he2, hd2⟩
    · exact Or.inl (he ▸ h2)
    · exact Or.inr ⟨he.trans he2, hd.trans hd2⟩

/-- The `.sort` call of the recommendation pipeline (stable sort with the
priority-then-distance comparator). -/
def rank (ms : List MatchedAd) : List MatchedAd :=
  List.insertionSort rankLe ms

/-- The `matchingAds` pipeline of `app.ts` lines 82–103: keep active
records, attach the rounded distance, keep those within their own radius,
and sort by priority then distance. -/
def matchingAds (dist : Dist) (userLat userLng : ℚ) (ads : List Ad) : List MatchedAd :=
  rank
    (((ads.filter (fun ad => ad.active)).map
        (fun ad => ⟨ad, jsRound (dist userLat userLng ad.latitude ad.longitude)⟩)).filter
      (fun m => (m.distance : ℚ) ≤ m.ad.radius))

/-- Outcome of one OSRM routing call for one candidate, as distinguished
by the per-candidate try/catch in `app.ts` lines 107–172: the fetch threw
or was aborted by the 5 s timeout; the response had a non-JSON
content-type; `response.json()` threw; or a JSON body was obtained, with
its `code` field and the list of its routes' durations (seconds). -/
inductive RoutingOutcome where
  | timeout
  | nonJson
  | parseError
  | body (code : String) (routeDurations : List ℚ)
  deriving Repr, DecidableEq

/-- The object shape returned per candidate by the enrichment step. -/
structure EnrichedAd where
  id : String
  businessName : String
  imageUrl : String
  websiteUrl : String
  latitude : ℚ
  longitude : ℚ
  distance : ℤ
  duration : Option ℤ
  deriving Repr, DecidableEq

/-- Per-candidate enrichment: every branch of the source returns the same
projection of the candidate; `duration` is set only on
`code === "Ok" && routes.length > 0`, to `Math.round(routes[0].duration)`. -/
def enrichOne (m : MatchedAd) : RoutingOutcome → EnrichedAd
  | .timeout =>
      { id := m.ad.id, businessName := m.ad.businessName, imageUrl := m.ad.imageUrl,
        websiteUrl := m.ad.websiteUrl, latitude := m.ad.latitude, longitude := m.ad.longitude,
        distance := m.distance, duration := none }
  | .nonJson =>
      { id := m.ad.id, businessName := m.ad.businessName, imageUrl := m.ad.imageUrl,
        websiteUrl := m.ad.websiteUrl, latitude := m.ad.latitude, longitude := m.ad.longitude,
        distance := m.distance, duration := none }
  | .parseError =>
      { id := m.ad.id, businessName := m.ad.businessName, imageUrl := m.ad.imageUrl,
        websiteUrl := m.ad.websiteUrl, latitude := m.ad.latitude, longitude := m.ad.longitude,
        distance := m.distance, duration := none }
  | .body code routeDurations =>
      { id := m.ad.id, businessName := m.ad.businessName, imageUrl := m.ad.imageUrl,
        websiteUrl := m.ad.websiteUrl, latitude := m.ad.latitude, longitude := m.ad.longitude,
        distance := m.distance,
        duration :=
          if code = "Ok" then
            match routeDurations with
            | d :: _ => some (jsRound d)
            | [] => none
          else none }

/-- `Promise.all(matchingAds.map(...))`: resolves to the per-candidate
results in input order.  `route` gives each candidate's routing outcome. -/
def enrich (route : MatchedAd → RoutingOutcome) (ms : List MatchedAd) : List EnrichedAd :=
  ms.map (fun m => enrichOne m (route m))

/-- Spec-side reading of "a usable route": the routing response is a JSON
body with `code = "Ok"` and at least one route; yields that route's
duration. -/
def usableRoute : RoutingOutcome → Option ℚ
  | .body "Ok" (d :: _) => some d
  | _ => none

/-- Result of `parseFloat` on a present query-string value. -/
inductive ParsedNum where
  | nan
  | val (q : ℚ)
  deriving Repr, DecidableEq

/-- The distinct responses of `GET /api/ads/recommendations`. -/
inductive RecResponse where
  | missingParams
  | invalidNumber
  | outOfRange
  | results (ads : List EnrichedAd) (total : ℕ)
  | noMatch
  deriving Repr, DecidableEq

/-- The `/api/ads/recommendations` handler (`app.ts` lines 50–185).
A query parameter is `none` when absent or falsy (the `!latitude ||
!longitude` check); otherwise it carries the `parseFloat` result. -/
def recommendationsHandler (dist : Dist) (route : MatchedAd → RoutingOutcome)
    (store : Store) (latQ lngQ : Option ParsedNum) : RecResponse :=
  match latQ, lngQ with
  | none, _ => .missingParams
  | _, none => .missingParams
  | some latP, some lngP =>
    match latP, lngP with
    | .nan, _ => .invalidNumber
    | _, .nan => .invalidNumber
    | .val userLat, .val userLng =>
      if userLat < -90 ∨ userLat > 90 ∨ userLng < -180 ∨ userLng > 180 then
        .outOfRange
      else
        let ms := matchingAds dist userLat userLng (getAds store)
        if 0 < ms.length then
          .results (enrich route ms) (enrich route ms).length
        else
          .noMatch

/-- A catalog record paired with its raw (unrounded) distance, as in the
chat path (`{...ad, distance}` with no rounding). -/
structure NearbyAd where
  ad : Ad
  distance : ℚ
  deriving Repr, DecidableEq

/-- The chat path comparator `(a, b) => a.distance - b.distance` as a
"sorts no later than" relation: pure ascending distance. -/
def nearLe (a b : NearbyAd) : Prop :=
  a.distance ≤ b.distance

instance : DecidableRel nearLe := fun a b => by
  unfold nearLe; infer_instance

instance : IsTotal NearbyAd nearLe :=
  ⟨fun a b => le_total a.distance b.distance⟩

instance : IsTrans NearbyAd nearLe :=
  ⟨fun _ _ _ hab hbc => le_trans hab hbc⟩

/-- `getNearbyAds` from `chatHandler.ts` lines 37–52: empty on a null
location (before any store read); otherwise reads the store (whose
failure propagates), keeps active records within `maxDistance`, sorts by
ascending distance, and takes the first five. -/
def getNearbyAds (dist : Dist) (store : Store) (userLocation : Option (ℚ × ℚ))
    (maxDistance : ℚ) : Except String (List NearbyAd) :=
  match userLocation with
  | none => .ok []
  | some (userLat, userLng) =>
    match chatGetAds store with
    | .error e => .error e
    | .ok ads =>
      .ok ((List.insertionSort nearLe
          (((ads.filter (fun ad => ad.active)).map
              (fun ad => ⟨ad, dist userLat userLng ad.latitude ad.longitude⟩)).filter
            (fun n => n.distance ≤ maxDistance))).take 5)

/-- The default `maxDistance` of `getNearbyAds` (20 km). -/
def defaultMaxDistance : ℚ := 20000

/-- JavaScript `Number.prototype.toFixed(1)` for the non-negative values
that occur here: nearest multiple of 1/10, ties toward the larger value,
rendered with one digit after the decimal point. -/
def toFixed1 (q : ℚ) : String :=
  let n : ℤ := ⌊q * 10 + 1/2⌋
  toString (n / 10) ++ "." ++ toString (n % 10)

/-- `formatAdsContext` from `chatHandler.ts` lines 55–63. -/
def formatAdsContext (ads : List NearbyAd) : String :=
  if ads.length = 0 then "No nearby businesses available."
  else
    String.intercalate "\n"
      (ads.enum.map (fun p =>
        toString (p.1 + 1) ++ ". " ++ p.2.ad.businessName ++ " - " ++ p.2.ad.description ++
          " (" ++ toFixed1 (p.2.distance / (160934/100)) ++ " mi / " ++
          toFixed1 (p.2.distance / 1000) ++ " km away)\n   Website: " ++ p.2.ad.websiteUrl))

/-- The chat handler's ad-dependent stage, as observed through its
responses: `handleChatMessage` computes `getNearbyAds` inside its global
try/catch, so a thrown store failure becomes a 500 error response, while
success yields the formatted context and the nearby-business count. -/
inductive ChatAdsOutcome where
  | ok (adsContext : String) (nearbyBusinesses : ℕ)
  | serverError (details : String)
  deriving Repr, DecidableEq

/-- `handleChatMessage`'s use of the catalog (`chatHandler.ts` lines
110–267, ads-related observables only). -/
def chatAdsStage (dist : Dist) (store : Store) (userLocation : Option (ℚ × ℚ)) :
    ChatAdsOutcome :=
  match getNearbyAds dist store userLocation defaultMaxDistance with
  | .ok ns => .ok (formatAdsContext ns) ns.length
  | .error e => .serverError e

/-! Concrete sample data used by closed witness and counterexample
statements.  `demoDist` assigns raw distances 1234.2 m and 1234.4 m to
the two sample records — distinct raw values that round to the same
integer meter. -/

/-- Sample active record "a": raw demo distance 1234.2 m. -/
def adA : Ad :=
  ⟨"a", "Alpha Cafe", "coffee shop", "/a.png", "https://a.example", 1, 0, 5000, true, 1⟩

/-- Sample active record "b": raw demo distance 1234.4 m, same priority as "a". -/
def adB : Ad :=
  ⟨"b", "Beta Bakery", "bakery", "/b.png", "https://b.example", 2, 0, 5000, true, 1⟩

/-- Sample inactive record. -/
def adX : Ad :=
  ⟨"x", "Xi Closed", "closed shop", "/x.png", "https://x.example", 3, 0, 5000, false, 1⟩

/-- Demo distance function keyed on the record latitude. -/
def demoDist : Dist := fun _ _ adLat _ =>
  if adLat = 1 then 6171/5 else if adLat = 2 then 6172/5 else 0

/-- Demo distance function: every record is exactly 5000 m away. -/
def distExact : Dist := fun _ _ _ _ => 5000

/-- Demo distance function: every record is 5001 m away. -/
def distPlus1 : Dist := fun _ _ _ _ => 5001

/-- Evaluated demo distances: both sample raw distances round to 1234 m. -/
theorem jsRound_demo : jsRound (6171/5) = 1234 ∧ jsRound (6172/5) = 1234 :=
  ⟨jsRound_eq (by norm_num) (by norm_num), jsRound_eq (by norm_num) (by norm_num)⟩

/-! ## Shared helper lemmas -/

/-- A stable sort leaves the sublist of elements agreeing on the sort key
untouched: if all elements selected by `p` are pairwise related by `r`,
sorting commutes with `filter p`. -/
theorem insertionSort_filter_eq {α : Type} (r : α → α → Prop) [DecidableRel r]
    (p : α → Bool) (l : List α) (hp : ∀ a b, p a = true → p b = true → r a b) :
    (List.insertionSort r l).filter p = l.filter p := by
  have hpair : (l.filter p).Pairwise r := by
    apply List.pairwise_of_forall_mem_list
    intro a ha b hb
    exact hp a b (List.mem_filter.mp ha).2 (List.mem_filter.mp hb).2
  have hsub : (l.filter p).Sublist (List.insertionSort r l) :=
    List.sublist_insertionSort hpair (List.filter_sublist l)
  have hself : (l.filter p).filter p = l.filter p :=
    List.filter_eq_self.mpr fun a ha => (List.mem_filter.mp ha).2
  have hsub2 : (l.filter p).Sublist ((List.insertionSort r l).filter p) := by
    have := List.Sublist.filter p hsub
    rwa [hself] at this
  have hperm : ((List.insertionSort r l).filter p).Perm (l.filter p) :=
    List.Perm.filter p (List.perm_insertionSort r l)
  exact (hsub2.eq_of_length hperm.length_eq.symm).symm

/-- Membership in the recommendation pipeline's output, characterised. -/
theorem mem_matchingAds_iff {dist : Dist} {userLat userLng : ℚ} {ads : List Ad}
    {m : MatchedAd} :
    m ∈ matchingAds dist userLat userLng ads ↔
      m.ad ∈ ads ∧ m.ad.active = true ∧
        m.distance = jsRound (dist userLat userLng m.ad.latitude m.ad.longitude) ∧
        (m.distance : ℚ) ≤ m.ad.radius := by
  unfold matchingAds rank
  rw [List.mem_insertionSort, List.mem_filter, List.mem_map]
  constructor
  · rintro ⟨⟨ad, hmem, rfl⟩, hle⟩
    rw [List.mem_filter] at hmem
    exact ⟨hmem.1, hmem.2, rfl, by exact_mod_cast of_decide_eq_true hle⟩
  · rintro ⟨hmem, hact, hdist, hle⟩
    constructor
    · refine ⟨m.ad, List.mem_filter.mpr ⟨hmem, hact⟩, ?_⟩
      cases m with
      | mk ad d => simp only at hdist ⊢; rw [hdist]
    · exact decide_eq_true (by exact_mod_cast hle)

/-- Membership in the chat path's distance-filtered candidate list. -/
theorem mem_nearbyCandidates_iff {dist : Dist} {userLat userLng maxD : ℚ} {ads : List Ad}
    {n : NearbyAd} :
    n ∈ (((ads.filter (fun ad => ad.active)).map
            (fun ad => (⟨ad, dist userLat userLng ad.latitude ad.longitude⟩ : NearbyAd))).filter
          (fun n => n.distance ≤ maxD)) ↔
      n.ad ∈ ads ∧ n.ad.active = true ∧
        n.distance = dist userLat userLng n.ad.latitude n.ad.longitude ∧
        n.distance ≤ maxD := by
  rw [List.mem_filter, List.mem_map]
  constructor
  · rintro ⟨⟨ad, hmem, rfl⟩, hle⟩
    rw [List.mem_filter] at hmem
    exact ⟨hmem.1, hmem.2, rfl, of_decide_eq_true hle⟩
  · rintro ⟨hmem, hact, hdist, hle⟩
    constructor
    · refine ⟨n.ad, List.mem_filter.mpr ⟨hmem, hact⟩, ?_⟩
      cases n with
      | mk ad d => simp only at hdist ⊢; rw [hdist]
    · exact decide_eq_true hle

/-! ## Claim theorems -/

/-- C1: for every ranked candidate list and any combination of
per-candidate routing outcomes, enrichment returns a list of the same
length whose i-th element is derived from the i-th input candidate with
all candidate fields preserved; its duration is `none` whenever the
routing call failed (timeout, non-JSON, parse error, non-`Ok` code, or no
route) and the rounded route duration when it succeeded.  No failure of
one candidate removes or reorders any other candidate. -/
theorem enrich_preserves_candidates (route : MatchedAd → RoutingOutcome)
    (ms : List MatchedAd) :
    (enrich route ms).length = ms.length ∧
    ∀ (i : ℕ) (m : MatchedAd), ms[i]? = some m →
      ∃ e : EnrichedAd, (enrich route ms)[i]? = some e ∧
        e.id = m.ad.id ∧ e.businessName = m.ad.businessName ∧
        e.imageUrl = m.ad.imageUrl ∧ e.websiteUrl = m.ad.websiteUrl ∧
        e.latitude = m.ad.latitude ∧ e.longitude = m.ad.longitude ∧
        e.distance = m.distance ∧
        e.duration = (usableRoute (route m)).map jsRound := by
  constructor
  · exact List.length_map ms _
  · intro i m hm
    refine ⟨enrichOne m (route m), ?_, ?_⟩
    · rw [enrich, List.getElem?_map, hm]
      rfl
    · cases hr : route m with
      | timeout => simp [enrichOne, usableRoute]
      | nonJson => simp [enrichOne, usableRoute]
      | parseError => simp [enrichOne, usableRoute]
      | body code routes =>
        by_cases hc : code = "Ok"
        · subst hc
          cases routes with
          | nil => simp [enrichOne, usableRoute]
          | cons d rest => simp [enrichOne, usableRoute]
        · simp [enrichOne, usableRoute, hc]

/-- Witness for C1: a one-candidate list whose routing call times out is
returned unchanged with a `none` duration. -/
theorem enrich_preserves_candidates_witness :
    (enrich (fun _ => RoutingOutcome.timeout) [⟨adA, 1234⟩]).length =
        ([(⟨adA, 1234⟩ : MatchedAd)]).length ∧
    ∃ e : EnrichedAd, (enrich (fun _ => RoutingOutcome.timeout) [⟨adA, 1234⟩])[0]? = some e ∧
      e.id = adA.id ∧ e.businessName = adA.businessName ∧
      e.imageUrl = adA.imageUrl ∧ e.websiteUrl = adA.websiteUrl ∧
      e.latitude = adA.latitude ∧ e.longitude = adA.longitude ∧
      e.distance = 1234 ∧
      e.duration = (usableRoute RoutingOutcome.timeout).map jsRound :=
  ⟨(enrich_preserves_candidates (fun _ => RoutingOutcome.timeout) [⟨adA, 1234⟩]).1,
    (enrich_preserves_candidates (fun _ => RoutingOutcome.timeout) [⟨adA, 1234⟩]).2
      0 ⟨adA, 1234⟩ rfl⟩

/-- C2: the ranking sort is a permutation of its input, orders it by
ascending priority then ascending distance, preserves the input
(catalog) order of any two records agreeing on both keys (stability),
and — being a pure function — is deterministic across runs. -/
theorem rank_orders_priority_distance_stably (ms : List MatchedAd) :
    (rank ms).Perm ms ∧
    List.Sorted rankLe (rank ms) ∧
    (∀ p d, (rank ms).filter (fun m => decide (m.ad.priority = p ∧ m.distance = d)) =
        ms.filter (fun m => decide (m.ad.priority = p ∧ m.distance = d))) ∧
    rank ms = rank ms := by
  refine ⟨List.perm_insertionSort rankLe ms, List.sorted_insertionSort rankLe ms, ?_, rfl⟩
  intro p d
  apply insertionSort_filter_eq
  intro a b ha hb
  have ha' := of_decide_eq_true ha
  have hb' := of_decide_eq_true hb
  exact Or.inr ⟨ha'.1.trans hb'.1.symm, le_of_eq (ha'.2.trans hb'.2.symm)⟩

/-- Counterexample to C3: two candidates with equal priority whose raw
distances are 1234.2 m and 1234.4 m — record "a" strictly closer — both
round to 1234 m before the sort, so the pipeline keeps the catalog order
["b", "a"] instead of ordering by the raw float, which would yield
["a", "b"]. -/
theorem raw_distance_sort_key_cex :
    demoDist 0 0 adA.latitude adA.longitude < demoDist 0 0 adB.latitude adB.longitude ∧
    adA.priority = adB.priority ∧
    (matchingAds demoDist 0 0 [adB, adA]).map (fun m => m.ad.id) = ["b", "a"] := by
  refine ⟨by norm_num [demoDist, adA, adB], rfl, ?_⟩
  simp [matchingAds, rank, List.insertionSort, List.orderedInsert, adA, adB, demoDist,
    jsRound_demo.1, jsRound_demo.2, rankLe]

/-- C3 as amended: in the ad-recommendation path the distance is rounded
to the nearest integer meter in the map step, before the radius filter
and the sort; the sort key for candidates of equal priority is this
rounded distance (raw distances that round to the same integer tie and
fall back to catalog order). -/
theorem matchingAds_sort_key_is_rounded (dist : Dist) (userLat userLng : ℚ)
    (ads : List Ad) :
    List.Sorted rankLe (matchingAds dist userLat userLng ads) ∧
    ∀ m ∈ matchingAds dist userLat userLng ads,
      m.ad ∈ ads ∧
        m.distance = jsRound (dist userLat userLng m.ad.latitude m.ad.longitude) := by
  constructor
  · exact List.sorted_insertionSort rankLe _
  · intro m hm
    have h := mem_matchingAds_iff.mp hm
    exact ⟨h.1, h.2.2.1⟩

/-- Witness for C3's amended claim at a concrete input: the pipeline
output for the demo catalog carries the rounded 1234 m distance. -/
theorem matchingAds_sort_key_is_rounded_witness :
    List.Sorted rankLe (matchingAds demoDist 0 0 [adB, adA]) ∧
    ((⟨adB, 1234⟩ : MatchedAd).ad ∈ [adB, adA] ∧
      (⟨adB, 1234⟩ : MatchedAd).distance =
        jsRound (demoDist 0 0 adB.latitude adB.longitude)) := by
  refine ⟨(matchingAds_sort_key_is_rounded demoDist 0 0 [adB, adA]).1, ?_⟩
  have hmem : (⟨adB, 1234⟩ : MatchedAd) ∈ matchingAds demoDist 0 0 [adB, adA] := by
    apply mem_matchingAds_iff.mpr
    refine ⟨List.mem_cons_self adB [adA], rfl, ?_, ?_⟩
    · simp only [demoDist, adB]
      norm_num [jsRound_demo.2]
    · simp only [adB]
      norm_num
  have h := (matchingAds_sort_key_is_rounded demoDist 0 0 [adB, adA]).2 ⟨adB, 1234⟩ hmem
  exact ⟨h.1, h.2⟩

/-- Counterexample to C4: the catalog read of `app.ts` does not filter by
the active flag — a snapshot holding one inactive record is returned
as-is, inactive record included. -/
theorem getAds_returns_inactive_cex :
    getAds (Except.ok [adX]) = [adX] ∧ adX.active = false :=
  ⟨rfl, rfl⟩

/-- C4 as amended: the catalog read returns the parsed snapshot
unfiltered (inactive records included); each consuming path applies the
`active` filter itself, so every match produced by the recommendation
pipeline and every entry of the conversational near-set comes from a
record with `active = true`. -/
theorem matches_only_from_active_records (dist : Dist) (userLat userLng : ℚ)
    (ads : List Ad) (store : Store) (loc : Option (ℚ × ℚ)) (maxD : ℚ) :
    (∀ m ∈ matchingAds dist userLat userLng ads, m.ad.active = true) ∧
    (∀ ns, getNearbyAds dist store loc maxD = Except.ok ns →
      ∀ n ∈ ns, n.ad.active = true) := by
  constructor
  · intro m hm
    exact (mem_matchingAds_iff.mp hm).2.1
  · intro ns hns n hn
    cases loc with
    | none =>
      simp only [getNearbyAds, Except.ok.injEq] at hns
      subst hns
      cases hn
    | some p =>
      obtain ⟨userLat, userLng⟩ := p
      cases store with
      | error e => simp [getNearbyAds, chatGetAds] at hns
      | ok catalog =>
        simp only [getNearbyAds, chatGetAds, Except.ok.injEq] at hns
        subst hns
        have hn2 := List.mem_insertionSort nearLe |>.mp ((List.take_sublist 5 _).mem hn)
        exact (mem_nearbyCandidates_iff.mp hn2).2.1

/-- Witness for C4's amended claim: both paths on concrete inputs. -/
theorem matches_only_from_active_records_witness :
    (⟨adB, 1234⟩ : MatchedAd).ad.active = true ∧
    (⟨adA, 6171/5⟩ : NearbyAd).ad.active = true := by
  constructor
  · apply (matches_only_from_active_records demoDist 0 0 [adB, adA]
      (Except.ok [adB, adA]) (some (0, 0)) defaultMaxDistance).1 ⟨adB, 1234⟩
    apply mem_matchingAds_iff.mpr
    refine ⟨List.mem_cons_self adB [adA], rfl, ?_, ?_⟩
    · simp only [demoDist, adB]
      norm_num [jsRound_demo.2]
    · simp only [adB]
      norm_num
  · apply (matches_only_from_active_records demoDist 0 0 [adB, adA]
      (Except.ok [adA]) (some (0, 0)) defaultMaxDistance).2
      [⟨adA, 6171/5⟩] ?_ ⟨adA, 6171/5⟩ (List.mem_cons_self _ _)
    simp [getNearbyAds, chatGetAds, defaultMaxDistance, List.insertionSort, adA, demoDist]
    norm_num

/-- Counterexample to C5: when the store is unreadable, the chat path's
catalog read propagates the failure, and the chat handler surfaces it as
a server-error response — not as "zero matches available". -/
theorem chat_catalog_failure_cex :
    chatAdsStage demoDist (Except.error "ENOENT") (some (0, 0)) =
      ChatAdsOutcome.serverError "ENOENT" ∧
    ¬∃ s k, chatAdsStage demoDist (Except.error "ENOENT") (some (0, 0)) =
      ChatAdsOutcome.ok s k := by
  refine ⟨rfl, ?_⟩
  rintro ⟨s, k, h⟩
  simp [chatAdsStage, getNearbyAds, chatGetAds] at h

/-- C5 as amended: only the recommendations path degrades a store
failure to zero matches (its `getAds` catches and returns the empty
list, so the endpoint answers "no match"); the conversational path's
catalog read propagates the failure and the chat turn ends in a
server-error response instead of zero matches. -/
theorem catalog_failure_split_behavior (dist : Dist) (route : MatchedAd → RoutingOutcome)
    (e : String) (userLat userLng : ℚ)
    (hlat : -90 ≤ userLat ∧ userLat ≤ 90) (hlng : -180 ≤ userLng ∧ userLng ≤ 180) :
    getAds (Except.error e) = [] ∧
    recommendationsHandler dist route (Except.error e)
      (some (ParsedNum.val userLat)) (some (ParsedNum.val userLng)) = RecResponse.noMatch ∧
    chatAdsStage dist (Except.error e) (some (userLat, userLng)) =
      ChatAdsOutcome.serverError e := by
  refine ⟨rfl, ?_, rfl⟩
  have hcond : ¬(userLat < -90 ∨ userLat > 90 ∨ userLng < -180 ∨ userLng > 180) := by
    push_neg
    exact ⟨hlat.1, hlat.2, hlng.1, hlng.2⟩
  simp only [recommendationsHandler, if_neg hcond]
  rfl

/-- Witness for C5's amended claim at the origin coordinate. -/
theorem catalog_failure_split_behavior_witness :
    getAds (Except.error "ENOENT") = [] ∧
    recommendationsHandler demoDist (fun _ => RoutingOutcome.timeout) (Except.error "ENOENT")
      (some (ParsedNum.val 0)) (some (ParsedNum.val 0)) = RecResponse.noMatch ∧
    chatAdsStage demoDist (Except.error "ENOENT") (some (0, 0)) =
      ChatAdsOutcome.serverError "ENOENT" :=
  catalog_failure_split_behavior demoDist (fun _ => RoutingOutcome.timeout) "ENOENT" 0 0
    ⟨by norm_num, by norm_num⟩ ⟨by norm_num, by norm_num⟩

/-- C6: a recommendation query whose latitude or longitude parses to NaN
or lies outside [-90, 90] × [-180, 180] is answered with a structured
validation error, and the response is computed without consulting the
catalog store, the distance function, or the routing collaborator — no
catalog read, matching, ranking, or enrichment occurs. -/
theorem invalid_coordinates_rejected (latP lngP : ParsedNum)
    (h : latP = ParsedNum.nan ∨ lngP = ParsedNum.nan ∨
      (∃ x, latP = ParsedNum.val x ∧ (x < -90 ∨ x > 90)) ∨
      (∃ y, lngP = ParsedNum.val y ∧ (y < -180 ∨ y > 180))) :
    ∀ (dist dist' : Dist) (route route' : MatchedAd → RoutingOutcome)
      (store store' : Store),
      recommendationsHandler dist route store (some latP) (some lngP) =
        recommendationsHandler dist' route' store' (some latP) (some lngP) ∧
      (recommendationsHandler dist route store (some latP) (some lngP) =
          RecResponse.invalidNumber ∨
        recommendationsHandler dist route store (some latP) (some lngP) =
          RecResponse.outOfRange) := by
  intro dist dist' route route' store store'
  cases latP with
  | nan =>
    cases lngP with
    | nan => exact ⟨rfl, Or.inl rfl⟩
    | val y => exact ⟨rfl, Or.inl rfl⟩
  | val x =>
    cases lngP with
    | nan => exact ⟨rfl, Or.inl rfl⟩
    | val y =>
      have hcond : x < -90 ∨ x > 90 ∨ y < -180 ∨ y > 180 := by
        rcases h with h | h | ⟨x', hx', hr⟩ | ⟨y', hy', hr⟩
        · cases h
        · cases h
        · cases hx'
          rcases hr with hr | hr
          · exact Or.inl hr
          · exact Or.inr (Or.inl hr)
        · cases hy'
          rcases hr with hr | hr
          · exact Or.inr (Or.inr (Or.inl hr))
          · exact Or.inr (Or.inr (Or.inr hr))
      refine ⟨?_, Or.inr ?_⟩
      · simp only [recommendationsHandler, if_pos hcond]
      · simp only [recommendationsHandler, if_pos hcond]

/-- Witness for C6: the spec's scenario query (200, 0) is rejected as
out-of-range identically for two different stores, distance functions,
and routing collaborators. -/
theorem invalid_coordinates_rejected_witness :
    recommendationsHandler demoDist (fun _ => RoutingOutcome.timeout) (Except.ok [adA])
        (some (ParsedNum.val 200)) (some (ParsedNum.val 0)) =
      recommendationsHandler distExact (fun _ => RoutingOutcome.nonJson)
        (Except.error "ENOENT") (some (ParsedNum.val 200)) (some (ParsedNum.val 0)) ∧
    (recommendationsHandler demoDist (fun _ => RoutingOutcome.timeout) (Except.ok [adA])
        (some (ParsedNum.val 200)) (some (ParsedNum.val 0)) = RecResponse.invalidNumber ∨
      recommendationsHandler demoDist (fun _ => RoutingOutcome.timeout) (Except.ok [adA])
        (some (ParsedNum.val 200)) (some (ParsedNum.val 0)) = RecResponse.outOfRange) :=
  invalid_coordinates_rejected (ParsedNum.val 200) (ParsedNum.val 0)
    (Or.inr (Or.inr (Or.inl ⟨200, rfl, Or.inr (by norm_num)⟩)))
    demoDist distExact (fun _ => RoutingOutcome.timeout) (fun _ => RoutingOutcome.nonJson)
    (Except.ok [adA]) (Except.error "ENOENT")

/-- C7: an active catalog record is in the match set exactly when its
computed (rounded-meter) distance is at most its own radius — an
inclusive boundary, so a query point at exactly `radius` meters matches
and one at `radius + 1` meters does not. -/
theorem match_iff_distance_le_radius (dist : Dist) (userLat userLng : ℚ)
    (ads : List Ad) (ad : Ad) (had : ad ∈ ads) (hact : ad.active = true) :
    (∃ m ∈ matchingAds dist userLat userLng ads, m.ad = ad) ↔
      (jsRound (dist userLat userLng ad.latitude ad.longitude) : ℚ) ≤ ad.radius := by
  constructor
  · rintro ⟨m, hm, rfl⟩
    have h := mem_matchingAds_iff.mp hm
    rw [← h.2.2.1]
    exact h.2.2.2
  · intro hle
    refine ⟨⟨ad, jsRound (dist userLat userLng ad.latitude ad.longitude)⟩, ?_, rfl⟩
    exact mem_matchingAds_iff.mpr ⟨had, hact, rfl, hle⟩

/-- Witness for C7: with every record exactly 5000 m away, the
radius-5000 record matches; with every record 5001 m away it does not. -/
theorem match_iff_distance_le_radius_witness :
    (∃ m ∈ matchingAds distExact 0 0 [adA], m.ad = adA) ∧
    ¬(∃ m ∈ matchingAds distPlus1 0 0 [adA], m.ad = adA) := by
  have hex : jsRound (distExact 0 0 adA.latitude adA.longitude) = 5000 :=
    jsRound_eq (by norm_num [distExact]) (by norm_num [distExact])
  have hp1 : jsRound (distPlus1 0 0 adA.latitude adA.longitude) = 5001 :=
    jsRound_eq (by norm_num [distPlus1]) (by norm_num [distPlus1])
  constructor
  · apply (match_iff_distance_le_radius distExact 0 0 [adA] adA
      (List.mem_cons_self adA []) rfl).mpr
    rw [hex]
    norm_num [adA]
  · intro hx
    have h := (match_iff_distance_le_radius distPlus1 0 0 [adA] adA
      (List.mem_cons_self adA []) rfl).mp hx
    rw [hp1] at h
    norm_num [adA] at h

/-- C8: for a readable catalog and a present user location, the
conversational near-set is at most five entries, sorted by ascending raw
distance, consists only of active records within the fixed 20 km ceiling
(each record's own radius plays no part), and any active record within
the ceiling is either in the set or bumped by five entries that are all
at least as close. -/
theorem nearby_set_top5_distance_sorted (dist : Dist) (ads : List Ad)
    (userLat userLng : ℚ) :
    ∃ ns, getNearbyAds dist (Except.ok ads) (some (userLat, userLng)) defaultMaxDistance =
        Except.ok ns ∧
      ns.length ≤ 5 ∧
      List.Sorted nearLe ns ∧
      (∀ n ∈ ns, n.ad ∈ ads ∧ n.ad.active = true ∧
        n.distance = dist userLat userLng n.ad.latitude n.ad.longitude ∧
        n.distance ≤ 20000) ∧
      (∀ ad ∈ ads, ad.active = true →
        dist userLat userLng ad.latitude ad.longitude ≤ 20000 →
        (∃ n ∈ ns, n.ad = ad) ∨
          (ns.length = 5 ∧
            ∀ n ∈ ns, n.distance ≤ dist userLat userLng ad.latitude ad.longitude)) := by
  set cands :=
    (((ads.filter (fun ad => ad.active)).map
        (fun ad => (⟨ad, dist userLat userLng ad.latitude ad.longitude⟩ : NearbyAd))).filter
      (fun n => n.distance ≤ defaultMaxDistance)) with hcands
  set s := List.insertionSort nearLe cands with hs
  refine ⟨s.take 5, rfl, List.length_take_le 5 s, ?_, ?_, ?_⟩
  · exact List.Pairwise.sublist (List.take_sublist 5 s) (List.sorted_insertionSort nearLe cands)
  · intro n hn
    have hn2 : n ∈ cands :=
      (List.mem_insertionSort nearLe).mp ((List.take_sublist 5 s).mem hn)
    have h := mem_nearbyCandidates_iff.mp hn2
    exact ⟨h.1, h.2.1, h.2.2.1, h.2.2.2⟩
  · intro ad hmem hact hle
    have hx : (⟨ad, dist userLat userLng ad.latitude ad.longitude⟩ : NearbyAd) ∈ s :=
      (List.mem_insertionSort nearLe).mpr
        (mem_nearbyCandidates_iff.mpr ⟨hmem, hact, rfl, hle⟩)
    rw [← List.take_append_drop 5 s, List.mem_append] at hx
    rcases hx with hx | hx
    · exact Or.inl ⟨_, hx, rfl⟩
    · refine Or.inr ⟨?_, ?_⟩
      · have hne : 5 < s.length := by
          by_contra hcon
          push_neg at hcon
          rw [List.drop_eq_nil_of_le hcon] at hx
          cases hx
        rw [List.length_take]
        omega
      · intro n hn
        exact (List.sorted_insertionSort nearLe cands).rel_of_mem_take_of_mem_drop hn hx

/-- Witness for C8 on the demo catalog: the near-set is computed, has at
most five entries, and contains the closest record. -/
theorem nearby_set_top5_distance_sorted_witness :
    ∃ ns, getNearbyAds demoDist (Except.ok [adB, adA, adX]) (some (0, 0))
        defaultMaxDistance = Except.ok ns ∧
      ns.length ≤ 5 ∧ (∃ n ∈ ns, n.ad = adA) := by
  obtain ⟨ns, h1, h2, _, _, h5⟩ :=
    nearby_set_top5_distance_sorted demoDist [adB, adA, adX] 0 0
  refine ⟨ns, h1, h2, ?_⟩
  have hq := h5 adA (by simp) rfl (by norm_num [demoDist, adA])
  rcases hq with hq | ⟨hlen, _⟩
  · exact hq
  · have heval :
        getNearbyAds demoDist (Except.ok [adB, adA, adX]) (some (0, 0)) defaultMaxDistance =
          Except.ok [⟨adA, 6171/5⟩, ⟨adB, 6172/5⟩] := by
      simp [getNearbyAds, chatGetAds, defaultMaxDistance, List.insertionSort,
        List.orderedInsert, adA, adB, adX, demoDist]
      norm_num [nearLe]
    rw [h1] at heval
    injection heval with heq
    rw [heq] at hlen
    cases hlen

/-- C9: the context assembler returns the non-empty "no nearby
businesses" sentinel on an empty match sequence, and otherwise one entry
per business joined by newlines, each carrying the 1-based index, the
name, the description, the distance in miles and in kilometers rendered
to one decimal place, and the website URL on its own labeled sub-line
(after a newline and the `Website:` label). -/
theorem assemble_sentinel_and_line_format :
    formatAdsContext [] = "No nearby businesses available." ∧
    "No nearby businesses available." ≠ "" ∧
    ∀ ads, ads ≠ [] →
      formatAdsContext ads =
        String.intercalate "\n"
          (ads.enum.map (fun p =>
            toString (p.1 + 1) ++ ". " ++ p.2.ad.businessName ++ " - " ++
              p.2.ad.description ++ " (" ++ toFixed1 (p.2.distance / (160934/100)) ++
              " mi / " ++ toFixed1 (p.2.distance / 1000) ++ " km away)" ++ "\n" ++
              "   Website: " ++ p.2.ad.websiteUrl)) := by
  refine ⟨rfl, by decide, ?_⟩
  intro ads hne
  unfold formatAdsContext
  rw [if_neg (by simpa using hne)]
  have hsplit : (" km away)\n   Website: " : String) = " km away)" ++ "\n" ++ "   Website: " :=
    rfl
  have hfun :
      (fun p : ℕ × NearbyAd =>
          toString (p.1 + 1) ++ ". " ++ p.2.ad.businessName ++ " - " ++ p.2.ad.description ++
            " (" ++ toFixed1 (p.2.distance / (160934/100)) ++ " mi / " ++
            toFixed1 (p.2.distance / 1000) ++ " km away)\n   Website: " ++ p.2.ad.websiteUrl) =
        (fun p : ℕ × NearbyAd =>
          toString (p.1 + 1) ++ ". " ++ p.2.ad.businessName ++ " - " ++ p.2.ad.description ++
            " (" ++ toFixed1 (p.2.distance / (160934/100)) ++ " mi / " ++
            toFixed1 (p.2.distance / 1000) ++ " km away)" ++ "\n" ++
            "   Website: " ++ p.2.ad.websiteUrl) := by
    funext p
    rw [hsplit]
    simp [String.append_assoc]
  rw [hfun]

/-- Witness for C9: the sentinel on the empty sequence, and the rendered
block for a concrete one-entry sequence. -/
theorem assemble_sentinel_and_line_format_witness :
    formatAdsContext [] = "No nearby businesses available." ∧
    formatAdsContext [⟨adA, 6171/5⟩] =
      String.intercalate "\n"
        (([(⟨adA, 6171/5⟩ : NearbyAd)]).enum.map (fun p =>
          toString (p.1 + 1) ++ ". " ++ p.2.ad.businessName ++ " - " ++
            p.2.ad.description ++ " (" ++ toFixed1 (p.2.distance / (160934/100)) ++
            " mi / " ++ toFixed1 (p.2.distance / 1000) ++ " km away)" ++ "\n" ++
            "   Website: " ++ p.2.ad.websiteUrl)) :=
  ⟨assemble_sentinel_and_line_format.1,
    assemble_sentinel_and_line_format.2.2 [⟨adA, 6171/5⟩] (List.cons_ne_nil _ _)⟩

/-- C10: with a null user location the conversational near-set is the
empty list, computed without consulting the catalog store or the
distance function (the result is identical for any store, distance
function, and ceiling), and the context block is therefore the
"no nearby businesses" sentinel. -/
theorem null_location_short_circuits (dist dist' : Dist) (store store' : Store)
    (maxD maxD' : ℚ) :
    getNearbyAds dist store none maxD = Except.ok [] ∧
    getNearbyAds dist store none maxD = getNearbyAds dist' store' none maxD' ∧
    chatAdsStage dist store none = ChatAdsOutcome.ok "No nearby businesses available." 0 ∧
    formatAdsContext [] = "No nearby businesses available." :=
  ⟨rfl, rfl, rfl, rfl⟩

end Ridelytics
